import Mathlib

/-!
Verification development for `uploader_script.py`: a script that parses a
Telegram deep link, downloads the linked media, and uploads it to YouTube
with a bounded-retry resumable upload.  The Python source is shallowly
embedded below: pure helpers become Lean functions, the retry `while` loop
becomes a fuel-indexed recursion, and the orchestrating coroutine becomes a
function over an explicit environment and a world oracle describing the
outcomes of the external collaborators (Telegram, YouTube).
-/

namespace Uploader

/-! ### Model of Python `int(...)` on ASCII strings

Python `int(s)` strips surrounding whitespace, accepts one optional sign,
then a nonempty digit sequence in which single underscores may appear
between digits (not leading, not trailing, not doubled).  On anything else
it raises `ValueError`, modelled here as `none`. -/

/-- Digit run after the first digit: underscores must be followed by a digit. -/
def pyDigitsGo (acc : Nat) : List Char → Option Nat
  | [] => some acc
  | '_' :: [] => none
  | '_' :: c :: cs =>
      if c.isDigit then pyDigitsGo (acc * 10 + (c.toNat - 48)) cs else none
  | c :: cs =>
      if c.isDigit then pyDigitsGo (acc * 10 + (c.toNat - 48)) cs else none

/-- Nonempty digit sequence (with Python's underscore rule) to a natural. -/
def pyDigits : List Char → Option Nat
  | [] => none
  | c :: cs => if c.isDigit then pyDigitsGo (c.toNat - 48) cs else none

/-- Drop leading and trailing whitespace. -/
def stripWs (cs : List Char) : List Char :=
  ((cs.dropWhile Char.isWhitespace).reverse.dropWhile Char.isWhitespace).reverse

/-- Model of Python `int(s)`: optional surrounding whitespace, optional
sign, then digits; `none` models the `ValueError`. -/
def pyInt (s : String) : Option Int :=
  match stripWs s.data with
  | '+' :: rest => (pyDigits rest).map (fun n => (n : Int))
  | '-' :: rest => (pyDigits rest).map (fun n => -(n : Int))
  | rest => (pyDigits rest).map (fun n => (n : Int))

/-! ### LinkParser: `parse_telegram_link`

Source (`uploader_script.py`, lines 32-67): split the link on `/`, drop
empty segments (this also absorbs the `strip('/')` the source performs
first, since leading and trailing slashes only contribute empty segments),
locate the first segment equal to `c`, read the last segment as the message
id, check a segment follows `c`, read it as the base channel id, and build
the channel reference by prefixing the literal `-100`.  Each `ValueError`
raised inside is distinguished below by constructor; the source prints the
message and calls `sys.exit(1)` for all of them. -/

/-- Failure cases of `parse_telegram_link`, one per distinct raise site:
`notCanonical` for a link without a `c` segment, `missingChatId` for the
dedicated incomplete-link check, `badInt` for any failed `int(...)`
conversion. -/
inductive ParseErr
  | notCanonical
  | missingChatId
  | badInt
deriving DecidableEq

/-- Split a character list on `'/'`, keeping empty pieces, as Python
`str.split('/')` does. -/
def splitSlashGo (cur : List Char) : List Char → List (List Char)
  | [] => [cur.reverse]
  | '/' :: cs => cur.reverse :: splitSlashGo [] cs
  | c :: cs => splitSlashGo (c :: cur) cs

/-- The segment list of a link: `[p for p in link.strip('/').split('/') if p]`.
Dropping the empty pieces after the split also absorbs the `strip('/')`,
since leading and trailing slashes only contribute empty pieces. -/
def linkParts (link : String) : List String :=
  ((splitSlashGo [] link.data).map (fun cs => String.mk cs)).filter (fun p => p ≠ "")

instance {ε α : Type} [DecidableEq ε] [DecidableEq α] : DecidableEq (Except ε α) :=
  fun x y =>
    match x, y with
    | .error a, .error b =>
        if h : a = b then isTrue (by rw [h]) else isFalse (by simp [h])
    | .ok a, .ok b =>
        if h : a = b then isTrue (by rw [h]) else isFalse (by simp [h])
    | .error _, .ok _ => isFalse (by simp)
    | .ok _, .error _ => isFalse (by simp)

/-- Shallow embedding of `parse_telegram_link` (lines 32-67). -/
def parse_telegram_link (link : String) : Except ParseErr (Int × Int) :=
  let parts := linkParts link
  if "c" ∈ parts then
    let c_index := parts.indexOf "c"
    match pyInt (parts.getLastD "") with
    | none => .error .badInt
    | some message_id =>
      if parts.length ≤ c_index + 1 then .error .missingChatId
      else
        match pyInt (parts.getD (c_index + 1) "") with
        | none => .error .badInt
        | some base_channel_id =>
          match pyInt ("-100" ++ toString base_channel_id) with
          | none => .error .badInt
          | some channel_id => .ok (channel_id, message_id)
  else .error .notCanonical

/-! ### List helper lemmas for the parser proofs -/

/-- A list's `getD` at an offset past a prefix reads from the suffix. -/
theorem getD_append_shift (pre : List String) :
    ∀ (l2 : List String) (k : Nat) (d : String),
      (pre ++ l2).getD (pre.length + k) d = l2.getD k d := by
  induction pre with
  | nil => intro l2 k d; simp
  | cons y ys ih =>
    intro l2 k d
    have h1 : (y :: ys).length + k = (ys.length + k) + 1 := by
      simp [List.length_cons]; omega
    rw [List.cons_append, h1, List.getD_cons_succ, ih]

/-- Index of the first `"c"` when the prefix holds none. -/
theorem indexOf_c (pre rest : List String) (h : "c" ∉ pre) :
    (pre ++ "c" :: rest).indexOf "c" = pre.length := by
  rw [List.indexOf_append_of_not_mem h, List.indexOf_cons_self]
  exact Nat.add_zero _

/-- First-occurrence decomposition: a member splits the list with a
member-free prefix. -/
theorem mem_split_first {l : List String} (h : "c" ∈ l) :
    ∃ pre rest, l = pre ++ "c" :: rest ∧ "c" ∉ pre := by
  induction l with
  | nil => cases h
  | cons x xs ih =>
    by_cases hx : x = "c"
    · exact ⟨[], xs, by simp [hx], by simp⟩
    · have hmem : "c" ∈ xs := by
        cases h with
        | head => exact absurd rfl hx
        | tail _ h2 => exact h2
      obtain ⟨pre, rest, heq, hnp⟩ := ih hmem
      exact ⟨x :: pre, rest, by rw [List.cons_append, heq], by
        simp only [List.mem_cons, not_or]
        exact ⟨fun hh => hx hh.symm, hnp⟩⟩

/-- Characterization of `parse_telegram_link` on a link whose segments
decompose at the first `"c"`. -/
theorem parse_chr (link : String) (pre rest : List String)
    (hp : linkParts link = pre ++ "c" :: rest) (hpre : "c" ∉ pre) :
    parse_telegram_link link =
      (match pyInt ((pre ++ "c" :: rest).getLastD "") with
       | none => .error .badInt
       | some message_id =>
         if (pre ++ "c" :: rest).length ≤ pre.length + 1 then
           .error .missingChatId
         else
           match pyInt ((pre ++ "c" :: rest).getD (pre.length + 1) "") with
           | none => .error .badInt
           | some base_channel_id =>
             match pyInt ("-100" ++ toString base_channel_id) with
             | none => .error .badInt
             | some channel_id => .ok (channel_id, message_id)) := by
  have hmem : "c" ∈ pre ++ "c" :: rest := by simp
  simp only [parse_telegram_link, hp, if_pos hmem, indexOf_c pre rest hpre]

/-- Last element of a nonempty list is a member. -/
theorem getLastD_mem (xs : List String) :
    ∀ (x d : String), (x :: xs).getLastD d ∈ x :: xs := by
  induction xs with
  | nil => intro x d; simp [List.getLastD]
  | cons y ys ih =>
    intro x d
    rw [List.getLastD_cons]
    exact List.mem_cons_of_mem x (ih y x)

/-! ### Claim theorems about the parser -/

/-- C8: `parse_telegram_link` applied to the link
`https://t.me/c/1234567890/555` returns the channel reference
`-1001234567890` (the base channel id prefixed with `-100`) and the
message id `555`. -/
theorem parse_concrete_link_ok :
    parse_telegram_link "https://t.me/c/1234567890/555" =
      Except.ok (-1001234567890, 555) := by
  decide

/-- C9: for every pair of links whose segment lists agree except for an
interposed thread-id segment between the channel-id segment and the
message-id segment, a successful parse of the threaded link gives exactly
the result of parsing the thread-free link. -/
theorem parse_thread_id_ignored (l1 l2 : String) (pre : List String)
    (a t m : String) (p : Int × Int)
    (hpre : "c" ∉ pre)
    (h1 : linkParts l1 = pre ++ ["c", a, t, m])
    (h2 : linkParts l2 = pre ++ ["c", a, m])
    (hok : parse_telegram_link l1 = Except.ok p) :
    parse_telegram_link l2 = Except.ok p := by
  have c1 := parse_chr l1 pre [a, t, m] h1 hpre
  have c2 := parse_chr l2 pre [a, m] h2 hpre
  have g1 : (pre ++ ["c", a, t, m]).getLastD "" = m := by
    rw [show pre ++ ["c", a, t, m] = (pre ++ ["c", a, t]) ++ [m] by simp]
    simp [List.getLastD_concat]
  have g2 : (pre ++ ["c", a, m]).getLastD "" = m := by
    rw [show pre ++ ["c", a, m] = (pre ++ ["c", a]) ++ [m] by simp]
    simp [List.getLastD_concat]
  have d1 : (pre ++ ["c", a, t, m]).getD (pre.length + 1) "" = a := by
    rw [getD_append_shift]; rfl
  have d2 : (pre ++ ["c", a, m]).getD (pre.length + 1) "" = a := by
    rw [getD_append_shift]; rfl
  have len1 : ¬((pre ++ ["c", a, t, m]).length ≤ pre.length + 1) := by
    simp only [List.length_append, List.length_cons, List.length_nil]
    omega
  have len2 : ¬((pre ++ ["c", a, m]).length ≤ pre.length + 1) := by
    simp only [List.length_append, List.length_cons, List.length_nil]
    omega
  cases hm : pyInt m with
  | none =>
    rw [c1, g1] at hok
    simp only [hm] at hok
    exact absurd hok (by simp)
  | some mid =>
    rw [c1, g1] at hok
    simp only [hm] at hok
    rw [if_neg len1] at hok
    simp only [d1] at hok
    cases ha : pyInt a with
    | none =>
      simp only [ha] at hok
      exact absurd hok (by simp)
    | some base =>
      simp only [ha] at hok
      cases hch : pyInt ("-100" ++ toString base) with
      | none =>
        simp only [hch] at hok
        exact absurd hok (by simp)
      | some ch =>
        simp only [hch] at hok
        rw [c2, g2]
        simp only [hm]
        rw [if_neg len2]
        simp only [d2, ha, hch]
        exact hok

/-- C9 witness: the theorem at the spec's example shape, instantiated on a
small concrete pair of links. -/
theorem parse_thread_id_ignored_witness :
    parse_telegram_link "t.me/c/77/5" = Except.ok (-10077, 5) :=
  parse_thread_id_ignored "t.me/c/77/999/5" "t.me/c/77/5" ["t.me"]
    "77" "999" "5" (-10077, 5) (by decide) (by decide) (by decide) (by decide)

/-- C5 counterexample: a link with exactly one segment after `c` does not
fail; the parser returns that segment both as the (prefixed) channel
reference and as the message id. -/
theorem parse_single_segment_cex :
    parse_telegram_link "https://t.me/c/123" = Except.ok (-100123, 123) := by
  decide

/-- C5 amended: for every link whose segment list has exactly one segment
after the first `c`, the parser reuses that one segment as both the
channel id and the message id; it fails only when an integer conversion of
the segment (or of its `-100`-prefixed form) fails, never because the
segment is shared. -/
theorem parse_single_segment_after_c (link : String) (pre : List String)
    (a : String) (hpre : "c" ∉ pre) (h : linkParts link = pre ++ ["c", a]) :
    parse_telegram_link link =
      (match pyInt a with
       | none => Except.error ParseErr.badInt
       | some n =>
         match pyInt ("-100" ++ toString n) with
         | none => Except.error ParseErr.badInt
         | some ch => Except.ok (ch, n)) := by
  have hchar := parse_chr link pre [a] h hpre
  have g : (pre ++ ["c", a]).getLastD "" = a := by
    rw [show pre ++ ["c", a] = (pre ++ ["c"]) ++ [a] by simp]
    simp [List.getLastD_concat]
  have d : (pre ++ ["c", a]).getD (pre.length + 1) "" = a := by
    rw [getD_append_shift]; rfl
  have len : ¬((pre ++ ["c", a]).length ≤ pre.length + 1) := by
    simp only [List.length_append, List.length_cons, List.length_nil]
    omega
  rw [hchar, g]
  cases ha : pyInt a with
  | none => simp only [ha]
  | some n =>
    simp only [ha]
    rw [if_neg len]
    simp only [d, ha]

/-- C5 amended witness: the amended theorem instantiated at a concrete
single-segment link. -/
theorem parse_single_segment_after_c_witness :
    parse_telegram_link "t.me/c/88" =
      (match pyInt "88" with
       | none => Except.error ParseErr.badInt
       | some n =>
         match pyInt ("-100" ++ toString n) with
         | none => Except.error ParseErr.badInt
         | some ch => Except.ok (ch, n)) :=
  parse_single_segment_after_c "t.me/c/88" ["t.me"] "88" (by decide) (by decide)

/-- C10: the dedicated missing-channel-id branch of `parse_telegram_link`
is unreachable — no input ever yields the `missingChatId` error — and
whenever `c` is the final non-empty segment the function instead fails on
the integer conversion of that last segment (the literal `c`). -/
theorem missing_chat_id_unreachable (link : String) :
    parse_telegram_link link ≠ Except.error ParseErr.missingChatId ∧
      (linkParts link ≠ [] → (linkParts link).getLastD "" = "c" →
        parse_telegram_link link = Except.error ParseErr.badInt) := by
  by_cases hc : "c" ∈ linkParts link
  · obtain ⟨pre, rest, heq, hnp⟩ := mem_split_first hc
    have hchar := parse_chr link pre rest heq hnp
    cases rest with
    | nil =>
      have hl : (pre ++ ["c"]).getLastD "" = "c" := by
        simp [List.getLastD_concat]
      have hparse : parse_telegram_link link = Except.error ParseErr.badInt := by
        rw [hchar, hl, show pyInt "c" = none from by decide]
      exact ⟨by rw [hparse]; simp, fun _ _ => hparse⟩
    | cons r rs =>
      have len : ¬((pre ++ "c" :: r :: rs).length ≤ pre.length + 1) := by
        simp only [List.length_append, List.length_cons]
        omega
      constructor
      · intro habs
        rw [hchar] at habs
        cases hm : pyInt ((pre ++ "c" :: r :: rs).getLastD "") with
        | none =>
          simp only [hm] at habs
          exact absurd habs (by simp)
        | some mid =>
          simp only [hm] at habs
          rw [if_neg len] at habs
          cases ha : pyInt ((pre ++ "c" :: r :: rs).getD (pre.length + 1) "") with
          | none =>
            simp only [ha] at habs
            exact absurd habs (by simp)
          | some base =>
            simp only [ha] at habs
            cases hch : pyInt ("-100" ++ toString base) with
            | none =>
              simp only [hch] at habs
              exact absurd habs (by simp)
            | some ch =>
              simp only [hch] at habs
              exact absurd habs (by simp)
      · intro _ hlast
        rw [heq] at hlast
        rw [hchar, hlast, show pyInt "c" = none from by decide]
  · have hn : parse_telegram_link link = Except.error ParseErr.notCanonical := by
      simp only [parse_telegram_link, if_neg hc]
    constructor
    · rw [hn]; simp
    · intro hne hlast
      exfalso
      apply hc
      cases hpp : linkParts link with
      | nil => exact (hne hpp).elim
      | cons x xs =>
        rw [hpp] at hlast
        have hmem := getLastD_mem xs x ""
        rw [hlast] at hmem
        exact hmem

/-- C10 witness: at the link `t.me/c`, whose final segment is the literal
`c`, the parser fails with the integer-conversion error, not with
`missingChatId`. -/
theorem missing_chat_id_unreachable_witness :
    parse_telegram_link "t.me/c" ≠ Except.error ParseErr.missingChatId ∧
      parse_telegram_link "t.me/c" = Except.error ParseErr.badInt :=
  ⟨(missing_chat_id_unreachable "t.me/c").1,
   (missing_chat_id_unreachable "t.me/c").2 (by decide) (by decide)⟩

/-! ### UploadPipeline: the retry loop of `upload_video`

Source (`uploader_script.py`, lines 120-152).  The loop body calls
`request.next_chunk()`; a chunk attempt can raise, report progress with no
final response, or return a final response dict that may or may not carry
an `id`.  An id-less final response raises inside the same `try`, is
caught by the same `except`, increments the same retry counter and sleeps
— but since `response` is no longer `None`, the `while` condition then
exits the loop and the function returns `None` without a further chunk
call.  The infinite `while` is embedded with explicit fuel; `fuelOut`
marks exhausted fuel and never arises in the runs the claims describe. -/

/-- Outcome of one `request.next_chunk()` call: an exception, a progress
report (`response` stays `None`), or a final response carrying an optional
`id` field. -/
inductive ChunkOutcome
  | raise
  | progress
  | final : Option Nat → ChunkOutcome
deriving DecidableEq

/-- How the loop ended: returned an id; broke out at the retry cap
(`Maximum retries reached`, returning `None`); exited the `while` after an
id-less final response (also returning `None`); or ran out of fuel. -/
inductive UploadResult
  | ok : Nat → UploadResult
  | retriesExhausted
  | malformedExit
  | fuelOut
deriving DecidableEq

/-- Observable trace of one run of the loop: the result, the backoff
sleeps in chronological order, and the number of `next_chunk` calls. -/
structure UploadTrace where
  result : UploadResult
  sleeps : List Nat
  calls : Nat
deriving DecidableEq

/-- `MAX_RETRIES = 5` (line 123). -/
def MAX_RETRIES : Nat := 5

/-- One iteration per fuel unit of the `while response is None` loop
(lines 125-151).  `attempt` indexes the `next_chunk` calls into the
oracle; `retry` is the shared retry counter. -/
def uploadLoop (oracle : Nat → ChunkOutcome) : Nat → Nat → Nat → UploadTrace
  | 0, _, _ => ⟨.fuelOut, [], 0⟩
  | fuel + 1, attempt, retry =>
    match oracle attempt with
    | .progress =>
      let t := uploadLoop oracle fuel (attempt + 1) retry
      ⟨t.result, t.sleeps, t.calls + 1⟩
    | .final (some id) => ⟨.ok id, [], 1⟩
    | .final none =>
      if retry + 1 > MAX_RETRIES then ⟨.retriesExhausted, [], 1⟩
      else ⟨.malformedExit, [2 ^ (retry + 1)], 1⟩
    | .raise =>
      if retry + 1 > MAX_RETRIES then ⟨.retriesExhausted, [], 1⟩
      else
        let t := uploadLoop oracle fuel (attempt + 1) (retry + 1)
        ⟨t.result, 2 ^ (retry + 1) :: t.sleeps, t.calls + 1⟩

/-- Shallow embedding of `upload_video` (lines 95-152): run the retry loop
from a fresh state (`response = None`, `retry = 0`). -/
def upload_video (oracle : Nat → ChunkOutcome) (fuel : Nat) : UploadTrace :=
  uploadLoop oracle fuel 0 0

/-- The chunk-send stub of C2: the first five attempts raise, the sixth
returns a final response carrying the identifier. -/
def stubFailFive (vid : Nat) : Nat → ChunkOutcome :=
  fun i => if i < 5 then .raise else .final (some vid)

/-- Raising the fuel does not change a run that did not exhaust it. -/
theorem uploadLoop_mono (oracle : Nat → ChunkOutcome) :
    ∀ (fuel fuel' attempt retry : Nat), fuel ≤ fuel' →
      (uploadLoop oracle fuel attempt retry).result ≠ .fuelOut →
      uploadLoop oracle fuel' attempt retry =
        uploadLoop oracle fuel attempt retry := by
  intro fuel
  induction fuel with
  | zero =>
    intro fuel' attempt retry _ h
    exact absurd rfl h
  | succ f ih =>
    intro fuel' attempt retry hle h
    obtain ⟨f', rfl⟩ : ∃ f', fuel' = f' + 1 := ⟨fuel' - 1, by omega⟩
    have hff : f ≤ f' := by omega
    cases ho : oracle attempt with
    | progress =>
      have h2 : (uploadLoop oracle f (attempt + 1) retry).result ≠ .fuelOut := by
        simp only [uploadLoop, ho] at h
        exact h
      simp only [uploadLoop, ho]
      rw [ih f' (attempt + 1) retry hff h2]
    | raise =>
      by_cases hr : retry + 1 > MAX_RETRIES
      · simp only [uploadLoop, ho, if_pos hr]
      · have h2 : (uploadLoop oracle f (attempt + 1) (retry + 1)).result ≠ .fuelOut := by
          simp only [uploadLoop, ho, if_neg hr] at h
          exact h
        simp only [uploadLoop, ho, if_neg hr]
        rw [ih f' (attempt + 1) (retry + 1) hff h2]
    | final id =>
      cases id with
      | none => simp only [uploadLoop, ho]
      | some v => simp only [uploadLoop, ho]

/-- The chunk-send stub of C3: every attempt raises. -/
def stubAlwaysFail : Nat → ChunkOutcome := fun _ => .raise

/-- C2: when the chunk send fails on exactly the first 5 attempts and the
6th returns a final response with the identifier, `upload_video` returns
that identifier, sleeping exactly `2, 4, 8, 16, 32` time units before the
retries, in order, over 6 chunk calls. -/
theorem upload_retry_backoff (vid fuel : Nat) (h : 6 ≤ fuel) :
    upload_video (stubFailFive vid) fuel =
      ⟨.ok vid, [2, 4, 8, 16, 32], 6⟩ := by
  have base : uploadLoop (stubFailFive vid) 6 0 0 =
      ⟨.ok vid, [2, 4, 8, 16, 32], 6⟩ := rfl
  have hres : (uploadLoop (stubFailFive vid) 6 0 0).result ≠ .fuelOut := by
    rw [base]
    simp
  show uploadLoop (stubFailFive vid) fuel 0 0 = _
  rw [uploadLoop_mono (stubFailFive vid) 6 fuel 0 0 h hres, base]

/-- C2 witness: the theorem at `vid = 42` with the minimal fuel. -/
theorem upload_retry_backoff_witness :
    6 ≤ 6 ∧ upload_video (stubFailFive 42) 6 =
      ⟨.ok 42, [2, 4, 8, 16, 32], 6⟩ :=
  ⟨by decide, upload_retry_backoff 42 6 (by decide)⟩

/-- C3: when the chunk send fails on 6 consecutive attempts, the upload
ends in the failed state of the retry-cap branch (`Maximum retries
reached`, the embedding of `RetriesExhausted`), having called the chunk
send exactly 6 times — no 6th retry happens even though the stub would
keep failing. -/
theorem upload_retries_exhausted (fuel : Nat) (h : 6 ≤ fuel) :
    upload_video stubAlwaysFail fuel =
      ⟨.retriesExhausted, [2, 4, 8, 16, 32], 6⟩ := by
  have base : uploadLoop stubAlwaysFail 6 0 0 =
      ⟨.retriesExhausted, [2, 4, 8, 16, 32], 6⟩ := rfl
  have hres : (uploadLoop stubAlwaysFail 6 0 0).result ≠ .fuelOut := by
    rw [base]
    simp
  show uploadLoop stubAlwaysFail fuel 0 0 = _
  rw [uploadLoop_mono stubAlwaysFail 6 fuel 0 0 h hres, base]

/-- C3 witness: the theorem at the minimal fuel. -/
theorem upload_retries_exhausted_witness :
    6 ≤ 6 ∧ upload_video stubAlwaysFail 6 =
      ⟨.retriesExhausted, [2, 4, 8, 16, 32], 6⟩ :=
  ⟨by decide, upload_retries_exhausted 6 (by decide)⟩

/-- C4 counterexample: when the very first chunk response is final but
id-less, `upload_video` performs no further chunk call (`calls = 1`) but
it does perform one backoff sleep of 2 time units before returning
failure, refuting the claim that no backoff sleep happens. -/
theorem upload_malformed_cex :
    upload_video (fun _ => ChunkOutcome.final none) 10 =
        ⟨.malformedExit, [2], 1⟩ ∧
      ([2] : List Nat) ≠ [] :=
  ⟨by decide, by decide⟩

/-- C4 amended: a final response lacking the identifier ends the upload
with no further chunk call, but — whenever the incremented retry counter
is still at or below `MAX_RETRIES` — only after one backoff sleep of
`2 ^ (retry + 1)` time units; the failure is surfaced as the loop exit
with a set `response`, not through the retry-cap branch. -/
theorem upload_malformed_one_sleep (oracle : Nat → ChunkOutcome)
    (attempt retry fuel : Nat) (ho : oracle attempt = .final none)
    (hr : retry + 1 ≤ MAX_RETRIES) :
    uploadLoop oracle (fuel + 1) attempt retry =
      ⟨.malformedExit, [2 ^ (retry + 1)], 1⟩ := by
  simp only [uploadLoop, ho,
    if_neg (by omega : ¬retry + 1 > MAX_RETRIES)]

/-- C4 amended witness: the amended theorem at the first attempt of a
fresh upload. -/
theorem upload_malformed_one_sleep_witness :
    (fun _ => ChunkOutcome.final none) 0 = ChunkOutcome.final none ∧
      0 + 1 ≤ MAX_RETRIES ∧
      uploadLoop (fun _ => ChunkOutcome.final none) 9 0 0 =
        ⟨.malformedExit, [2], 1⟩ :=
  ⟨rfl, by decide,
    upload_malformed_one_sleep (fun _ => ChunkOutcome.final none) 0 0 8 rfl
      (by decide)⟩

/-! ### Orchestrator: `download_video_and_upload`

Source (`uploader_script.py`, lines 162-242).  The coroutine reads six
environment secrets, checks them with `all(...)` (Python truthiness: an
unset variable is `None`, and `None` and the empty string are falsy),
parses the link (whose parser prints and calls `sys.exit(1)` on failure),
then enters a `try` block that connects to Telegram, fetches the message,
checks it carries a `MessageMediaDocument`, downloads the media into
`video_{channel_id}_{message_id}.mp4`, authenticates with YouTube (a step
that calls `sys.exit(1)` on failure — a `SystemExit` that passes the
generic `except Exception` but still runs `finally`), and calls
`upload_video`, whose return value is discarded.  `except Exception`
prints and swallows; `finally` disconnects the client and removes the
downloaded file if its path was recorded.  External collaborators are
modelled by a `World` oracle; the file system is modelled as the list of
files the run created. -/

/-- The six required secrets, as optionally-set environment variables. -/
structure Env where
  tg_api_id : Option String
  tg_api_hash : Option String
  tg_session_string : Option String
  yt_client_id : Option String
  yt_client_secret : Option String
  yt_refresh_token : Option String
deriving DecidableEq

/-- Python truthiness of `os.environ.get(...)`: unset (`None`) and the
empty string are falsy. -/
def pyTruthy : Option String → Bool
  | none => false
  | some s => s ≠ ""

/-- The `all(required_secrets)` check of line 176. -/
def secretsOk (e : Env) : Bool :=
  pyTruthy e.tg_api_id && pyTruthy e.tg_api_hash &&
    pyTruthy e.tg_session_string && pyTruthy e.yt_client_id &&
    pyTruthy e.yt_client_secret && pyTruthy e.yt_refresh_token

/-- Spec-side observation (not in the source): which of the six secrets
are absent, by name, for stating what an enumerated error would name. -/
def missingSecretNames (e : Env) : List String :=
  (if pyTruthy e.tg_api_id then [] else ["TG_API_ID"]) ++
  (if pyTruthy e.tg_api_hash then [] else ["TG_API_HASH"]) ++
  (if pyTruthy e.tg_session_string then [] else ["TG_SESSION_STRING"]) ++
  (if pyTruthy e.yt_client_id then [] else ["YOUTUBE_CLIENT_ID"]) ++
  (if pyTruthy e.yt_client_secret then [] else ["YOUTUBE_CLIENT_SECRET"]) ++
  (if pyTruthy e.yt_refresh_token then [] else ["YOUTUBE_REFRESH_TOKEN"])

/-- The constant diagnostic printed at line 177 when secrets are missing;
it does not depend on which secrets are missing. -/
def missingSecretsMsg : String :=
  "Missing one or more required secrets. Cannot proceed with upload."

/-- Outcome of `client.get_messages` plus the media check of line 203:
the call can raise, return no message, return a message without a
`MessageMediaDocument`, or return a usable document message (with an
optional caption). -/
inductive MsgFetch
  | fetchRaise
  | absent
  | noMedia
  | otherMedia
  | docMedia : Option String → MsgFetch
deriving DecidableEq

/-- Outcome of the `upload_video` call as the orchestrator sees it: the
call returns (its value — `some id` on success, `none` after exhausted
retries or a malformed response — is discarded by the orchestrator), or
an exception escapes it. -/
inductive UploadOutcome
  | completes : Option Nat → UploadOutcome
  | raises
deriving DecidableEq

/-- Oracle for the external collaborators of one run.  `strayOnRaise`
says whether a failing download leaves a partial file on disk before the
path is recorded (collaborator behaviour the source does not control). -/
structure World where
  connectOk : Bool
  msg : MsgFetch
  downloadOk : Bool
  strayOnRaise : Bool
  authOk : Bool
  upload : UploadOutcome
deriving DecidableEq

/-- External services contacted, in order. -/
inductive ExtCall
  | tgConnect
  | tgGetMessage
  | tgDownload
  | ytAuth
  | ytUpload
deriving DecidableEq

/-- How the `try` block of lines 187-232 ended: a normal `return` or
fall-through, an `Exception` (caught at line 233), or the `SystemExit`
from `get_youtube_service` (uncaught by `except Exception`, but `finally`
still runs). -/
inductive BodyExit
  | ret
  | exc
  | sysexit
deriving DecidableEq

/-- How the whole run ended: normal coroutine return (process exit 0) or
`sys.exit` with a code. -/
inductive ExitKind
  | returned
  | exited : Nat → ExitKind
deriving DecidableEq

/-- The download target name of line 211:
`f"video_{channel_id}_{message_id}.mp4"`. -/
def fileNameFor (ch m : Int) : String :=
  "video_" ++ toString ch ++ "_" ++ toString m ++ ".mp4"

/-- Observables of one run: exit kind, files left on disk (of those the
run created), all files the run created, the recorded download path, how
the `try` body ended (`none` when it was never entered), the external
calls made, the config diagnostic (set only on the missing-secrets path),
and the remote id returned by the upload step (an event the orchestrator
itself discards). -/
structure RunResult where
  exit : ExitKind
  fs : List String
  created : List String
  recorded : Option String
  bodyExit : Option BodyExit
  trace : List ExtCall
  configErr : Option String
  uploadedId : Option Nat
deriving DecidableEq

/-- The `try` body (lines 187-232): returns how it exited, the recorded
download path, the files created, the external calls, and the uploaded
id. -/
def tryBody (w : World) (ch m : Int) :
    BodyExit × Option String × List String × List ExtCall × Option Nat :=
  if ¬w.connectOk then (.exc, none, [], [.tgConnect], none)
  else
    match w.msg with
    | .fetchRaise => (.exc, none, [], [.tgConnect, .tgGetMessage], none)
    | .absent => (.ret, none, [], [.tgConnect, .tgGetMessage], none)
    | .noMedia => (.ret, none, [], [.tgConnect, .tgGetMessage], none)
    | .otherMedia => (.ret, none, [], [.tgConnect, .tgGetMessage], none)
    | .docMedia _caption =>
      let f := fileNameFor ch m
      if ¬w.downloadOk then
        (.exc, none, if w.strayOnRaise then [f] else [],
          [.tgConnect, .tgGetMessage, .tgDownload], none)
      else if ¬w.authOk then
        (.sysexit, some f, [f],
          [.tgConnect, .tgGetMessage, .tgDownload, .ytAuth], none)
      else
        match w.upload with
        | .raises =>
          (.exc, some f, [f],
            [.tgConnect, .tgGetMessage, .tgDownload, .ytAuth, .ytUpload],
            none)
        | .completes rid =>
          (.ret, some f, [f],
            [.tgConnect, .tgGetMessage, .tgDownload, .ytAuth, .ytUpload],
            rid)

/-- Shallow embedding of `download_video_and_upload` (lines 162-242):
secrets check, link parse (each exiting with code 1 on failure), then the
`try`/`except Exception`/`finally` block.  The `finally` removes the
downloaded file when its path was recorded; a caught `Exception` leads to
a normal return, a `SystemExit` to exit code 1. -/
def download_video_and_upload (env : Env) (link : String) (w : World) :
    RunResult :=
  if ¬secretsOk env then
    ⟨.exited 1, [], [], none, none, [], some missingSecretsMsg, none⟩
  else
    match parse_telegram_link link with
    | .error _ => ⟨.exited 1, [], [], none, none, [], none, none⟩
    | .ok (ch, m) =>
      let r := tryBody w ch m
      let bexit := r.1
      let rec' := r.2.1
      let created := r.2.2.1
      let tr := r.2.2.2.1
      let rid := r.2.2.2.2
      let fs :=
        match rec' with
        | some f => created.erase f
        | none => created
      ⟨match bexit with
        | .sysexit => .exited 1
        | _ => .returned,
        fs, created, rec', some bexit, tr, none, rid⟩

/-- Process exit code: `asyncio.run` completing normally ends the process
with 0; `sys.exit(n)` ends it with `n`. -/
def processExitCode (r : RunResult) : Nat :=
  match r.exit with
  | .returned => 0
  | .exited c => c

/-! ### Concrete fixtures for witnesses and counterexamples -/

/-- All six secrets present. -/
def envFull : Env :=
  ⟨some "i", some "h", some "s", some "ci", some "cs", some "rt"⟩

/-- Only the Telegram api id missing. -/
def envMissA : Env :=
  ⟨none, some "h", some "s", some "ci", some "cs", some "rt"⟩

/-- Only the YouTube client id missing. -/
def envMissB : Env :=
  ⟨some "i", some "h", some "s", none, some "cs", some "rt"⟩

/-- A well-formed canonical link. -/
def linkGood : String := "https://t.me/c/123/5"

/-- A fully successful world: document message, download, auth and upload
all succeed. -/
def wOk : World :=
  ⟨true, .docMedia (some "cap"), true, false, true, .completes (some 7)⟩

/-- A world whose message carries no media. -/
def wNoMedia : World :=
  ⟨true, .noMedia, true, false, true, .completes (some 7)⟩

/-- A world whose upload fails after exhausting retries
(`upload_video` returns `None`). -/
def wUploadFail : World :=
  ⟨true, .docMedia none, true, false, true, .completes none⟩

/-! ### Claim theorems about the orchestrator -/

/-- C1: for every run of `download_video_and_upload` whose outcome is one
of the claim's three — the upload step returned an identifier; a fatal
error was reported inside the run, which covers the `sys.exit(1)` paths
(missing secrets, parse failure, YouTube auth failure) as well as the
exit-0 fatal errors of this claim family, namely the
missing-message/no-supported-media diagnostic-and-return of lines 203-208
and an upload that fails after exhausting its retries (the upload step ran
but produced no identifier); or an exception was raised by a step after
the download path was recorded — every file the run created is absent
from disk when the function returns. -/
theorem cleanup_invariant (env : Env) (link : String) (w : World)
    (h : (download_video_and_upload env link w).uploadedId.isSome = true ∨
      (download_video_and_upload env link w).exit = ExitKind.exited 1 ∨
      ((download_video_and_upload env link w).bodyExit = some BodyExit.ret ∧
        (download_video_and_upload env link w).recorded = none) ∨
      (ExtCall.ytUpload ∈ (download_video_and_upload env link w).trace ∧
        (download_video_and_upload env link w).uploadedId = none) ∨
      ((download_video_and_upload env link w).bodyExit = some BodyExit.exc ∧
        (download_video_and_upload env link w).recorded.isSome = true)) :
    ((download_video_and_upload env link w).created).inter
      (download_video_and_upload env link w).fs = [] := by
  rcases w with ⟨con, msg, dl, part, auth, up⟩
  by_cases hs : secretsOk env
  · cases hp : parse_telegram_link link with
    | error e =>
      simp [download_video_and_upload, hs, hp, List.inter]
    | ok p =>
      obtain ⟨ch, m⟩ := p
      cases con <;> cases msg <;> cases dl <;> cases part <;> cases auth <;>
          cases up <;>
        simp_all [download_video_and_upload, tryBody, List.inter,
          List.erase_cons_head]
  · simp [download_video_and_upload, hs, List.inter]

/-- C1 witness: the theorem at a fully successful concrete run. -/
theorem cleanup_invariant_witness :
    (download_video_and_upload envFull linkGood wOk).uploadedId.isSome =
        true ∧
      ((download_video_and_upload envFull linkGood wOk).created).inter
        (download_video_and_upload envFull linkGood wOk).fs = [] :=
  ⟨by decide, cleanup_invariant envFull linkGood wOk (Or.inl (by decide))⟩

/-- C6 counterexample: two runs with different sets of missing secrets
produce the same constant configuration diagnostic, so the single error
cannot be naming the full set of missing items (it names none). -/
theorem missing_secrets_not_enumerated_cex :
    missingSecretNames envMissA ≠ missingSecretNames envMissB ∧
      (download_video_and_upload envMissA "x" wOk).configErr =
        (download_video_and_upload envMissB "x" wOk).configErr ∧
      (download_video_and_upload envMissA "x" wOk).configErr =
        some missingSecretsMsg :=
  ⟨by decide, by decide, by decide⟩

/-- C6 amended: when one or more of the six required secrets are absent,
the run fails fast with exit code 1 before contacting any external
service (empty call trace, no files), printing one fixed generic
diagnostic that does not identify which secrets are missing. -/
theorem missing_secrets_fail_fast (env : Env) (link : String) (w : World)
    (h : secretsOk env = false) :
    download_video_and_upload env link w =
      ⟨.exited 1, [], [], none, none, [], some missingSecretsMsg, none⟩ := by
  simp [download_video_and_upload, h]

/-- C6 amended witness: the amended theorem at a concrete environment
missing one secret. -/
theorem missing_secrets_fail_fast_witness :
    secretsOk envMissA = false ∧
      download_video_and_upload envMissA "x" wOk =
        ⟨.exited 1, [], [], none, none, [], some missingSecretsMsg, none⟩ :=
  ⟨by decide, missing_secrets_fail_fast envMissA "x" wOk (by decide)⟩

/-- C7 counterexample: with all secrets set and a valid link, a message
with no media ends the process with exit code 0, and so does a run whose
upload fails after exhausting retries — both fatal errors the claim says
must yield a non-zero exit code. -/
theorem exit_code_zero_on_fatal_cex :
    processExitCode (download_video_and_upload envFull linkGood wNoMedia) =
        0 ∧
      processExitCode
        (download_video_and_upload envFull linkGood wUploadFail) = 0 :=
  ⟨by decide, by decide⟩

/-- C7 amended: in single-link mode the process exit code is 1 exactly
when the secrets check fails, the link fails to parse, or the YouTube
authentication step (reached after a successful document fetch and
download) fails; every other outcome — including a missing or
media-less message, an upload that exhausts its retries, and any other
exception swallowed by the `except` — ends the process with exit code
0. -/
theorem exit_code_characterization (env : Env) (link : String) (w : World) :
    (download_video_and_upload env link w).exit = ExitKind.exited 1 ↔
      (secretsOk env = false ∨
        (secretsOk env = true ∧
          (∃ e, parse_telegram_link link = Except.error e)) ∨
        (secretsOk env = true ∧
          (∃ p, parse_telegram_link link = Except.ok p) ∧
          w.connectOk = true ∧ (∃ cap, w.msg = MsgFetch.docMedia cap) ∧
          w.downloadOk = true ∧ w.authOk = false)) := by
  rcases w with ⟨con, msg, dl, part, auth, up⟩
  by_cases hs : secretsOk env
  · cases hp : parse_telegram_link link with
    | error e => simp [download_video_and_upload, hs, hp]
    | ok p =>
      obtain ⟨ch, m⟩ := p
      cases con <;> cases msg <;> cases dl <;> cases auth <;> cases up <;>
        simp_all [download_video_and_upload, tryBody]
  · simp [download_video_and_upload, hs]

end Uploader
